import Mathlib

set_option maxRecDepth 4000

/-!
Verification development for the Discord music bot in src/index.js.

The file shallowly embeds the data model and the operations of the bot:
per-guild queues kept in a process-wide registry, the free-text search
candidate filter, volume commands, the tiered playback fallback of
playMusic, the stop/skip command handlers, the process-wide request
throttle, the retry helper, and the per-user command cooldown gate.

External collaborators (the search service, the stream layer, the voice
session) are modelled as oracles passed in explicitly; machine time is an
explicit natural-number parameter (milliseconds, as returned by Date.now).
-/

namespace Vibe

/-! ### String helpers mirroring the JavaScript primitives used in index.js -/

/-- Character-list prefix test, used to build a substring test. -/
def startsWithList : List Char → List Char → Bool
  | [], _ => true
  | _ :: _, [] => false
  | n :: ns, h :: hs => n == h && startsWithList ns hs

/-- Character-list substring test, mirroring JavaScript String.includes. -/
def containsList (needle : List Char) : List Char → Bool
  | [] => startsWithList needle []
  | h :: hs => startsWithList needle (h :: hs) || containsList needle hs

/-- Mirrors the check error.message.includes with the text 429 in retryWithBackoff. -/
def contains429 (msg : String) : Bool :=
  containsList "429".toList msg.toList

/-- Splitter on a non-empty separator, fueled so that it reduces inside
the kernel. Each step consumes at least one character of the input. -/
def splitOnCharsFuel (sep : List Char) : Nat → List Char → List (List Char)
  | _, [] => [[]]
  | 0, rest => [rest]
  | fuel + 1, h :: t =>
    if startsWithList sep (h :: t) && !sep.isEmpty then
      [] :: splitOnCharsFuel sep fuel (List.drop (sep.length - 1) t)
    else
      match splitOnCharsFuel sep fuel t with
      | [] => [[h]]
      | piece :: pieces => (h :: piece) :: pieces

/-- String splitting with the semantics of the JavaScript String.split
on a non-empty separator string. -/
def splitOnStr (s sep : String) : List String :=
  (splitOnCharsFuel sep.toList s.toList.length s.toList).map String.mk

/-- Prefix test on strings, mirroring String.startsWith. -/
def startsWithStr (s pre : String) : Bool :=
  startsWithList pre.toList s.toList

/-- Drops the first n characters of a string. -/
def dropStr (s : String) (n : Nat) : String :=
  String.mk (s.toList.drop n)

/-- Whitespace trimming at both ends, mirroring String.trim. -/
def trimStr (s : String) : String :=
  String.mk ((((s.toList.dropWhile Char.isWhitespace).reverse).dropWhile
    Char.isWhitespace).reverse)

/-- Mirrors String.prototype.padStart(2, zero) as used by formatDuration. -/
def pad2 (s : String) : String :=
  if 2 ≤ s.length then s else String.mk (List.replicate (2 - s.length) '0') ++ s

/-- Embeds formatDuration from index.js for a duration given in seconds.
The input is a number, so only the falsy branch and the minutes:seconds
branch of the source are reachable. -/
def formatDuration (d : Nat) : String :=
  if d == 0 then "0:00"
  else toString (d / 60) ++ ":" ++ pad2 (toString (d % 60))

/-- Embeds the query sanitizer of the third fallback tier in playMusic:
the regular expression removes every character that is not ASCII
alphanumeric or whitespace, then the result is trimmed. -/
def sanitizeQuery (s : String) : String :=
  trimStr (String.mk (s.toList.filter (fun c => c.isAlphanum || c.isWhitespace)))

/-- Query-string lookup used to model URL searchParams.get. -/
def queryParam (url key : String) : Option String :=
  let query := (splitOnStr url "?").getD 1 ""
  let pairs := splitOnStr query "&"
  match pairs.find? (fun p => startsWithStr p (key ++ "=")) with
  | some p => some (dropStr p (key.length + 1))
  | none => none

/-- Embeds normalizeYouTubeURL from index.js: short youtu.be links and
parameterized youtube.com/watch links are rewritten to the canonical
watch form; anything else is returned unchanged. -/
def normalizeYouTubeURL (url : String) : String :=
  let partsShort := splitOnStr url "youtu.be/"
  if 2 ≤ partsShort.length then
    let after := partsShort.getD 1 ""
    let vid := ((splitOnStr ((splitOnStr after "?").headD "") "&")).headD ""
    "https://www.youtube.com/watch?v=" ++ vid
  else if 2 ≤ (splitOnStr url "youtube.com/watch").length then
    match queryParam url "v" with
    | some vid => if vid == "" then url else "https://www.youtube.com/watch?v=" ++ vid
    | none => url
  else url

/-- Parses the maximal leading digit run of a character list. Returns
none when there is no leading digit, matching a NaN result. -/
def parseDigits (cs : List Char) : Option Nat :=
  let ds := cs.takeWhile Char.isDigit
  if ds.isEmpty then none
  else some (ds.foldl (fun a c => a * 10 + (c.toNat - 48)) 0)

/-- Embeds the JavaScript parseInt as applied by setVolume: leading
whitespace is skipped, an optional sign is read, then the maximal digit
prefix; no digits means NaN, modelled as none. -/
def parseIntJS (s : String) : Option Int :=
  let cs := s.toList.dropWhile Char.isWhitespace
  match cs with
  | '-' :: rest => (parseDigits rest).map (fun n => -(n : Int))
  | '+' :: rest => (parseDigits rest).map (fun n => (n : Int))
  | _ => (parseDigits cs).map (fun n => (n : Int))

/-- Embeds the track-id extraction of handleSpotifyTrack:
spotifyUrl.split with the /track/ separator, index 1, then split at the
question mark; a missing or empty id is falsy and yields none. -/
def extractTrackId (spotifyUrl : String) : Option String :=
  let parts := splitOnStr spotifyUrl "/track/"
  if parts.length < 2 then none
  else
    let tid := (splitOnStr (parts.getD 1 "") "?").headD ""
    if tid == "" then none else some tid

/-! ### Data model -/

/-- A resolved, playable track as built by searchYouTube and the
alternative-search fallback of playMusic. The duration field stores the
already formatted string, as in the source. -/
structure Song where
  title : String
  author : String
  url : String
  thumbnail : String
  duration : String
  deriving DecidableEq

/-- A raw search-service candidate, as returned by YouTube.search. The
channel name and the thumbnail may be absent; the duration is in
seconds; live marks a live broadcast. -/
structure Video where
  title : String
  channelName : Option String
  url : String
  thumbnailUrl : Option String
  duration : Nat
  live : Bool
  deriving DecidableEq

/-- One entry of the format list returned by ytdl.getInfo. An absent
download locator is modelled as the empty string, matching the falsy
check on format.url. -/
structure Format where
  hasAudio : Bool
  hasVideo : Bool
  container : String
  url : String
  deriving DecidableEq

/-- Voice connection states of the external voice layer. -/
inductive ConnStatus where
  | ready
  | connecting
  | disconnected
  | destroyed
  | signalling
  deriving DecidableEq

/-- The voice connection handle held by a queue. -/
structure Connection where
  status : ConnStatus
  deriving DecidableEq

/-- The audio player handle. hasVolumeResource records whether
player.state.resource.volume is available, the condition setVolume
checks before applying a change immediately. -/
structure Player where
  hasVolumeResource : Bool
  deriving DecidableEq

/-- The currentQuality snapshot attached to a queue. -/
structure Quality where
  bitrate : Option Nat
  codec : Option String
  container : Option String
  deriving DecidableEq

/-- Embeds the ServerQueue class of index.js. -/
structure ServerQueue where
  songs : List Song
  volume : ℚ
  playing : Bool
  connection : Option Connection
  player : Option Player
  currentQuality : Option Quality
  deriving DecidableEq

/-- The ServerQueue constructor: empty songs, volume one half, not
playing, no connection, no player, no quality info. -/
def ServerQueue.init : ServerQueue :=
  { songs := []
    volume := (1 : ℚ) / 2
    playing := false
    connection := none
    player := none
    currentQuality := none }

/-- The process-wide serverQueues map, keyed by guild id. -/
abbrev Registry := List (String × ServerQueue)

/-- Lookup of serverQueues.get. -/
def Registry.get (reg : Registry) (g : String) : Option ServerQueue :=
  List.lookup g reg

/-- Removal of serverQueues.delete. -/
def Registry.erase (reg : Registry) (g : String) : Registry :=
  reg.filter (fun p => p.1 != g)

/-- Update of serverQueues.set, also used to model in-place mutation of
the queue object held in the map. -/
def Registry.set (reg : Registry) (g : String) (q : ServerQueue) : Registry :=
  (g, q) :: Registry.erase reg g

/-- True when the queue holds a voice connection that is not already in
the Destroyed state, the guard used before connection.destroy(). -/
def connectionLive (q : ServerQueue) : Bool :=
  match q.connection with
  | some c => c.status != ConnStatus.destroyed
  | none => false

/-! ### Media resolver: searchYouTube -/

/-- Builds the playable-item record from a search candidate, as done in
searchYouTube and in the alternative fallback of playMusic: a missing or
empty channel name becomes Unknown, a missing thumbnail becomes the
empty string, the duration is formatted. -/
def songOfVideo (v : Video) : Song :=
  { title := v.title
    author :=
      match v.channelName with
      | some s => if s == "" then "Unknown" else s
      | none => "Unknown"
    url := v.url
    thumbnail := v.thumbnailUrl.getD ""
    duration := formatDuration v.duration }

/-- The scan loop of searchYouTube: skip a candidate when it is live, has
a falsy locator, or has duration below 10; return the first survivor. -/
def findFirstValid : List Video → Option Song
  | [] => none
  | v :: rest =>
    if v.live || v.url == "" || v.duration < 10 then findFirstValid rest
    else some (songOfVideo v)

/-- Embeds searchYouTube from index.js over the ranked candidate list
returned by the external search service (requested with limit 3): an
empty result list yields none, otherwise the first valid candidate is
turned into a Song, and none is returned when no candidate is valid. -/
def searchYouTube (results : List Video) : Option Song :=
  match results with
  | [] => none
  | _ :: _ => findFirstValid results

/-- The try/catch wrapper around the search-service call inside
searchYouTube: a thrown error is caught and surfaces as none; a
successful response is scanned. Exactly one service attempt is made. -/
def searchYouTubeAttempt (response : Except String (List Video)) : Option Song :=
  match response with
  | Except.error _ => none
  | Except.ok results => searchYouTube results

/-! ### Volume commands -/

/-- Replies of the volume commands. -/
inductive VolumeReply where
  | nothingPlaying
  | showCurrent (pct : Int)
  | invalid
  | applied (pct : Int)
  | savedForNext (pct : Int)
  deriving DecidableEq

/-- The guard serverQueue.player and player.state.resource.volume used
by setVolume before applying a change to the live resource. -/
def playerHasVolumeControl (q : ServerQueue) : Bool :=
  match q.player with
  | some p => p.hasVolumeResource
  | none => false

/-- Math.round((serverQueue.volume or 0.5) * 100): a zero stored volume
is falsy and is replaced by the default one half. -/
def currentVolumePct (q : ServerQueue) : Int :=
  round ((if q.volume = 0 then (1 : ℚ) / 2 else q.volume) * 100)

/-- Embeds setVolume from index.js. The argument is the raw command
argument: none models an absent parameter; an empty string is likewise
falsy and shows the current volume. A value that does not parse, or
parses below 1 or above 100, is rejected without touching the queue;
an accepted value v stores v / 100 and is applied to the live resource
when one with volume control exists. -/
def setVolume (reg : Registry) (g : String) (arg : Option String) : VolumeReply × Registry :=
  match Registry.get reg g with
  | none => (VolumeReply.nothingPlaying, reg)
  | some q =>
    match arg with
    | none => (VolumeReply.showCurrent (currentVolumePct q), reg)
    | some s =>
      if s == "" then (VolumeReply.showCurrent (currentVolumePct q), reg)
      else
        match parseIntJS s with
        | none => (VolumeReply.invalid, reg)
        | some v =>
          if v < 1 || 100 < v then (VolumeReply.invalid, reg)
          else
            let q1 := { q with volume := (v : ℚ) / 100 }
            if playerHasVolumeControl q then (VolumeReply.applied v, Registry.set reg g q1)
            else (VolumeReply.savedForNext v, Registry.set reg g q1)

/-- Embeds adjustVolume from index.js: the current percentage plus the
relative change is clamped into [1, 100] and handed to setVolume as a
decimal string. -/
def adjustVolume (reg : Registry) (g : String) (change : Int) : VolumeReply × Registry :=
  match Registry.get reg g with
  | none => (VolumeReply.nothingPlaying, reg)
  | some q =>
    let newVol := max 1 (min 100 (currentVolumePct q + change))
    setVolume reg g (some (toString newVol))

/-! ### Playback controller: playMusic -/

/-- The external stream/search layer as seen by playMusic, one oracle
per external operation: ytdl.getInfo (none models a thrown error),
playing a stream opened with an explicit format, playing a stream opened
with the lowest-quality audio filter, playing an alternative candidate
with that same filter, the alternative search (requested with limit 5),
and ytdl.validateURL. -/
structure StreamEnv where
  getInfoFormats : String → Option (List Format)
  streamWithFormat : String → Format → Bool
  streamLowest : String → Bool
  streamAlt : String → Bool
  altSearch : String → List Video
  validateURL : String → Bool

/-- The container priority list of the primary tier. -/
def formatPriority : List String := ["opus", "mp4", "webm"]

/-- The loop over the priority list: for each container in order, the
first audio format with that container and a usable locator. -/
def findPreferredFormat : List String → List Format → Option Format
  | [], _ => none
  | c :: cs, afs =>
    match afs.find? (fun f => f.container == c && f.url != "") with
    | some f => some f
    | none => findPreferredFormat cs afs

/-- The audio-only filter applied to the format list of ytdl.getInfo. -/
def audioOnly (formats : List Format) : List Format :=
  formats.filter (fun f => f.hasAudio && !f.hasVideo)

/-- Format selection of the primary tier: the priority loop first, then
any audio format with a usable locator. -/
def workingFormat (afs : List Format) : Option Format :=
  match findPreferredFormat formatPriority afs with
  | some f => some f
  | none => afs.find? (fun f => f.url != "")

/-- The format the primary tier would stream with, if any: getInfo must
succeed and the audio-only list must contain a usable format. -/
def tier1Format (env : StreamEnv) (validUrl : String) : Option Format :=
  match env.getInfoFormats validUrl with
  | none => none
  | some formats => workingFormat (audioOnly formats)

/-- Whether the whole primary tier of playMusic succeeds: a usable
format is found and the stream opened with it plays. -/
def tier1Succeeds (env : StreamEnv) (validUrl : String) : Bool :=
  match tier1Format env validUrl with
  | none => false
  | some f => env.streamWithFormat validUrl f

/-- The alternative loop of the third tier: for i below min(length, 3),
skip a candidate whose locator equals the failed URL (the skip consumes
an iteration, as in the source loop), otherwise try to stream it; the
first success is returned. -/
def tryAlts (env : StreamEnv) (validUrl : String) : Nat → List Video → Option Video
  | 0, _ => none
  | _ + 1, [] => none
  | n + 1, v :: rest =>
    if v.url == validUrl then tryAlts env validUrl n rest
    else if env.streamAlt v.url then some v
    else tryAlts env validUrl n rest

/-- Externally visible side effects of the command handlers and of
playMusic. -/
inductive Action where
  | destroyConn
  | stopPlayer
  | playStream (url : String)
  deriving DecidableEq

/-- Outcome of one invocation of playMusic. The two recursive calls of
the source (immediately after an invalid URL, and after the fixed
cooldown when every tier failed) are represented by outcomes so that one
invocation is a step function. -/
inductive PlayResult where
  | finished
  | invalidUrl
  | playedPrimary
  | playedFallback
  | playedAlternative
  | failedAll
  deriving DecidableEq

/-- Result of one invocation of playMusic: the outcome, the emitted side
effects, the final state of the queue object, and the final registry. -/
structure PlayStep where
  result : PlayResult
  actions : List Action
  queue : ServerQueue
  registry : Registry
  deriving DecidableEq

/-- Embeds playMusic from index.js as a step function. An empty queue
marks the queue not playing, destroys a live connection and removes the
guild from the registry. Otherwise the voice channel is joined and a
player created, the head URL is normalized and validated, and the three
streaming tiers run in order: explicit format selection, the
lowest-quality audio filter, then up to three of the at most five
alternative search candidates, the first working alternative replacing
the head item in place. When everything fails the head is dropped and
the controller retries after the fixed cooldown. -/
def playMusic (env : StreamEnv) (reg : Registry) (g : String) (q : ServerQueue) : PlayStep :=
  match q.songs with
  | [] =>
    let q1 := { q with playing := false }
    { result := PlayResult.finished
      actions := if connectionLive q then [Action.destroyConn] else []
      queue := q1
      registry := Registry.erase reg g }
  | song :: rest =>
    if song.url == "" then
      let q1 := { q with songs := rest }
      { result := PlayResult.invalidUrl, actions := [], queue := q1,
        registry := Registry.set reg g q1 }
    else
      let q1 := { q with connection := some { status := ConnStatus.ready },
                         player := some { hasVolumeResource := false } }
      let validUrl := normalizeYouTubeURL song.url
      if !(startsWithStr validUrl "http") then
        let q2 := { q1 with songs := rest }
        { result := PlayResult.invalidUrl, actions := [], queue := q2,
          registry := Registry.set reg g q2 }
      else if !(env.validateURL validUrl) then
        let q2 := { q1 with songs := rest }
        { result := PlayResult.invalidUrl, actions := [], queue := q2,
          registry := Registry.set reg g q2 }
      else if tier1Succeeds env validUrl then
        let q2 := { q1 with playing := true, player := some { hasVolumeResource := true } }
        { result := PlayResult.playedPrimary, actions := [Action.playStream validUrl],
          queue := q2, registry := Registry.set reg g q2 }
      else if env.streamLowest validUrl then
        let q2 := { q1 with playing := true, player := some { hasVolumeResource := true } }
        { result := PlayResult.playedFallback, actions := [Action.playStream validUrl],
          queue := q2, registry := Registry.set reg g q2 }
      else
        match tryAlts env validUrl 3
            (env.altSearch (sanitizeQuery (song.title ++ " " ++ song.author))) with
        | some v =>
          let q2 := { q1 with songs := songOfVideo v :: rest, playing := true,
                              player := some { hasVolumeResource := true } }
          { result := PlayResult.playedAlternative, actions := [Action.playStream v.url],
            queue := q2, registry := Registry.set reg g q2 }
        | none =>
          let q2 := { q1 with songs := rest }
          { result := PlayResult.failedAll, actions := [], queue := q2,
            registry := Registry.set reg g q2 }

/-- True when the outcome of a play-command completion opened an audio
stream. -/
def streamOpenedIn : List Action → Bool
  | [] => false
  | Action.playStream _ :: _ => true
  | _ :: rest => streamOpenedIn rest

/-! ### Command handlers: play completion, stop, skip -/

/-- Outcome of the tail of handlePlay, after resolution settled. -/
inductive PlayCompleteResult where
  | couldNotFind
  | addedToQueue
  | startedPlayback (step : PlayStep)
  deriving DecidableEq

/-- Embeds the tail of handlePlay from index.js, the part that runs when
the awaited media resolution completes: a missing result is reported;
otherwise the guild queue is fetched or freshly created, the resolved
song is appended, and when the queue is not playing, playMusic is
started on it. -/
def handlePlayComplete (env : StreamEnv) (reg : Registry) (g : String)
    (songInfo : Option Song) : PlayCompleteResult × Registry :=
  match songInfo with
  | none => (PlayCompleteResult.couldNotFind, reg)
  | some song =>
    let q0 :=
      match Registry.get reg g with
      | some q => q
      | none => ServerQueue.init
    let q1 := { q0 with songs := q0.songs ++ [song] }
    let reg1 := Registry.set reg g q1
    if !q1.playing then
      let step := playMusic env reg1 g q1
      (PlayCompleteResult.startedPlayback step, step.registry)
    else
      (PlayCompleteResult.addedToQueue, reg1)

/-- Replies of the stop command. -/
inductive StopReply where
  | nothingPlaying
  | stopped
  deriving DecidableEq

/-- Embeds handleStop from index.js: with no queue, an error reply;
otherwise the songs are cleared, playing is unset, the player is
stopped, a live connection is destroyed and the guild is removed from
the registry. -/
def handleStop (reg : Registry) (g : String) : StopReply × List Action × Registry :=
  match Registry.get reg g with
  | none => (StopReply.nothingPlaying, [], reg)
  | some q =>
    let acts := (if q.player.isSome then [Action.stopPlayer] else []) ++
      (if connectionLive q then [Action.destroyConn] else [])
    (StopReply.stopped, acts, Registry.erase reg g)

/-- Replies of the skip command. -/
inductive SkipReply where
  | nothingPlaying
  | noMoreSongs
  | skipped
  deriving DecidableEq

/-- Embeds handleSkip from index.js: rejected when no queue or no player
exists, rejected when at most one song is queued; otherwise the player
is stopped, which triggers the normal end-of-stream transition. -/
def handleSkip (reg : Registry) (g : String) : SkipReply × List Action × Registry :=
  match Registry.get reg g with
  | none => (SkipReply.nothingPlaying, [], reg)
  | some q =>
    if q.player.isNone then (SkipReply.nothingPlaying, [], reg)
    else if q.songs.length ≤ 1 then (SkipReply.noMoreSongs, [], reg)
    else (SkipReply.skipped, [Action.stopPlayer], reg)

/-! ### Request throttle and Spotify resolution call timing -/

/-- The fixed minimum spacing between throttled requests. -/
def REQUEST_DELAY : Nat := 1000

/-- Embeds throttleRequests from index.js as a function of the shared
lastRequestTime and the current time: the pair holds the time at which
the guarded request proceeds and the updated lastRequestTime. -/
def throttleRequests (lastRequestTime now : Nat) : Nat × Nat :=
  let timeSinceLastRequest := now - lastRequestTime
  if timeSinceLastRequest < REQUEST_DELAY then
    let delay := REQUEST_DELAY - timeSinceLastRequest
    (now + delay, now + delay)
  else (now, now)

/-- The external clients used by the Spotify branch of resolution. -/
structure ResolveEnv where
  getTrack : String → Option (String × String)
  search : String → List Video

/-- One outbound call of the resolver, with the time it is issued. -/
structure CallEvent where
  name : String
  time : Nat
  deriving DecidableEq

/-- Embeds handleSpotifyTrack from index.js, instrumented with the
outbound calls it makes and the shared throttle timestamp: the catalog
getTrack call is issued immediately at the current time, without
touching the throttle; only the subsequent searchYouTube call runs
through throttleRequests. -/
def handleSpotifyTrack (env : ResolveEnv) (spotifyUrl : String)
    (lastRequestTime now : Nat) : Option Song × List CallEvent × Nat :=
  match extractTrackId spotifyUrl with
  | none => (none, [], lastRequestTime)
  | some tid =>
    match env.getTrack tid with
    | none => (none, [CallEvent.mk "getTrack" now], lastRequestTime)
    | some (trackName, artistName) =>
      let p := throttleRequests lastRequestTime now
      (searchYouTube (env.search (trackName ++ " " ++ artistName)),
       [CallEvent.mk "getTrack" now, CallEvent.mk "search" p.1], p.2)

/-! ### Retry helper -/

/-- The loop of retryWithBackoff: the oracle gives the outcome of each
attempt; the fuel, initialized to maxRetries, makes the recursion
structural while the loop bound i < maxRetries matches the source. The
result carries the final outcome (none only for the vacuous zero-retry
case, where the source returns undefined) and the list of backoff delays
actually waited. -/
def retryLoop {α : Type} (fn : Nat → Except String α) (maxRetries baseDelay : Nat) :
    Nat → Nat → Option (Except String α) × List Nat
  | _, 0 => (none, [])
  | i, fuel + 1 =>
    if i < maxRetries then
      match fn i with
      | Except.ok a => (some (Except.ok a), [])
      | Except.error e =>
        if contains429 e && i < maxRetries - 1 then
          let r := retryLoop fn maxRetries baseDelay (i + 1) fuel
          (r.1, baseDelay * 2 ^ i :: r.2)
        else (some (Except.error e), [])
    else (none, [])

/-- Embeds retryWithBackoff from index.js (defaults maxRetries = 3 and
baseDelay = 1000 in the source): attempts are retried only on an error
whose message contains 429, with delay baseDelay times 2 to the attempt
index, and the final error is rethrown when retries are exhausted. -/
def retryWithBackoff {α : Type} (fn : Nat → Except String α) (maxRetries baseDelay : Nat) :
    Option (Except String α) × List Nat :=
  retryLoop fn maxRetries baseDelay 0 maxRetries

/-! ### Command cooldown gate -/

/-- The fixed per-user, per-command cooldown in milliseconds. -/
def COMMAND_COOLDOWN : Nat := 2000

/-- The cooldown key, userId and command name joined by a dash. -/
def cooldownKey (userId command : String) : String :=
  userId ++ "-" ++ command

/-- Map.set on the cooldown map. -/
def cooldownSet (m : List (String × Nat)) (k : String) (t : Nat) : List (String × Nat) :=
  (k, t) :: m.filter (fun p => p.1 != k)

/-- The occasional cleanup: every entry older than one minute is
deleted. -/
def cleanupCooldowns (m : List (String × Nat)) (now : Nat) : List (String × Nat) :=
  m.filter (fun p => now - p.2 ≤ 60000)

/-- Embeds the cooldown gate at the top of the messageCreate handler:
when the stored timestamp for the user/command key is less than
COMMAND_COOLDOWN in the past the invocation is silently dropped and
nothing changes; otherwise the timestamp is recorded (and, on the random
one-percent roll modelled by doCleanup, stale entries are purged) and
the command dispatch runs. The Bool reports whether a handler ran. -/
def handleCommandMessage (m : List (String × Nat)) (userId command : String)
    (now : Nat) (doCleanup : Bool) : Bool × List (String × Nat) :=
  let key := cooldownKey userId command
  let onCooldown :=
    match List.lookup key m with
    | some t => decide (now < t + COMMAND_COOLDOWN)
    | none => false
  if onCooldown then (false, m)
  else
    let m1 := cooldownSet m key now
    let m2 := if doCleanup then cleanupCooldowns m1 now else m1
    (true, m2)

/-- Projection of the side effects of a play-command completion. -/
def playCompleteActions : PlayCompleteResult → List Action
  | PlayCompleteResult.startedPlayback step => step.actions
  | _ => []

/-! ### Concrete fixtures used by witnesses and counterexamples -/

/-- A resolved track used by the queue fixtures. -/
def demoSongA : Song :=
  { title := "A", author := "Art", url := "http://a", thumbnail := "", duration := "3:00" }

/-- A second resolved track. -/
def demoSongB : Song :=
  { title := "B", author := "Artist", url := "http://b", thumbnail := "", duration := "2:00" }

/-- A queue that is currently playing one song over a live connection. -/
def demoQueue : ServerQueue :=
  { ServerQueue.init with
    songs := [demoSongA]
    playing := true
    connection := some { status := ConnStatus.ready }
    player := some { hasVolumeResource := true } }

/-- A registry holding the playing demo queue under guild g. -/
def demoReg : Registry := [("g", demoQueue)]

/-- A queue with no songs but a live connection. -/
def emptyQueue : ServerQueue :=
  { ServerQueue.init with connection := some { status := ConnStatus.ready } }

/-- The single audio format offered by the demo environments. -/
def demoFormat : Format :=
  { hasAudio := true
    hasVideo := false
    container := "opus"
    url := "http://f" }

/-- A stream environment in which every operation succeeds. -/
def happyEnv : StreamEnv :=
  { getInfoFormats := fun _ => some [demoFormat]
    streamWithFormat := fun _ _ => true
    streamLowest := fun _ => true
    streamAlt := fun _ => true
    altSearch := fun _ => []
    validateURL := fun _ => true }

/-- The head song of the fallback scenarios. -/
def cxSong : Song :=
  { title := "Song A"
    author := "Artist B"
    url := "http://orig"
    thumbnail := ""
    duration := "3:20" }

/-- Builds the fallback-scenario alternative candidates. -/
def cxAlt (k : Nat) : Video :=
  { title := "alt" ++ toString k
    channelName := some ("c" ++ toString k)
    url := "http://a" ++ toString k
    thumbnailUrl := none
    duration := 100 + k
    live := false }

/-- A queue about to play the fallback-scenario song. -/
def cxQ : ServerQueue := { ServerQueue.init with songs := [cxSong] }

/-- Registry for the fallback scenarios. -/
def cxReg : Registry := [("g", cxQ)]

/-- Environment in which the first two streaming tiers fail and, among
the five fetched alternatives, only the fourth streams. -/
def cxEnv : StreamEnv :=
  { getInfoFormats := fun _ => some [demoFormat]
    streamWithFormat := fun _ _ => false
    streamLowest := fun _ => false
    streamAlt := fun u => u == "http://a4"
    altSearch := fun _ => [cxAlt 1, cxAlt 2, cxAlt 3, cxAlt 4, cxAlt 5]
    validateURL := fun _ => true }

/-- Same environment except that the second alternative streams. -/
def wEnv : StreamEnv := { cxEnv with streamAlt := fun u => u == "http://a2" }

/-- Search candidates of the free-text scenario from the spec: a live
broadcast, a five-second short, then a valid track. -/
def liveVid : Video :=
  { title := "live"
    channelName := some "c"
    url := "http://u1"
    thumbnailUrl := none
    duration := 100
    live := true }

/-- The five-second candidate. -/
def shortVid : Video :=
  { title := "short"
    channelName := some "c"
    url := "http://u2"
    thumbnailUrl := none
    duration := 5
    live := false }

/-- The valid candidate. -/
def validVid : Video :=
  { title := "good"
    channelName := some "c"
    url := "http://u3"
    thumbnailUrl := none
    duration := 200
    live := false }

/-- Spotify resolution environment for the throttle scenario. -/
def spotifyDemoEnv : ResolveEnv :=
  { getTrack := fun _ => some ("Name", "Artist")
    search := fun _ => [validVid] }

/-- The rate-limit error message of the retry scenario. -/
def err429 : String := "Request failed with status code 429"

/-- A valid candidate list for the retry scenario. -/
def retryDemoVideo : Video :=
  { title := "ok"
    channelName := some "c"
    url := "http://v"
    thumbnailUrl := none
    duration := 200
    live := false }

/-- An upstream service that throws a 429 on the first attempt and
succeeds on the second. -/
def rateLimitedService : Nat → Except String (List Video) :=
  fun i => if i == 0 then Except.error err429 else Except.ok [retryDemoVideo]

/-! ### Helper lemmas -/

/-- Looking up a guild right after setting it yields the stored queue. -/
theorem Registry.get_set_self (reg : Registry) (g : String) (q : ServerQueue) :
    Registry.get (Registry.set reg g q) g = some q := by
  simp [Registry.set, Registry.get, List.lookup]

/-- Looking up a guild right after erasing it yields nothing. -/
theorem Registry.get_erase_self (reg : Registry) (g : String) :
    Registry.get (Registry.erase reg g) g = none := by
  induction reg with
  | nil => rfl
  | cons p rest ih =>
    obtain ⟨a, b⟩ := p
    by_cases h : a = g
    · have hdrop : ((a, b).1 != g) = false := by simp [h]
      simpa [Registry.erase, Registry.get, List.filter_cons, hdrop] using ih
    · have hkeep : ((a, b).1 != g) = true := by simp [h]
      have hne : (g == a) = false := by simp [Ne.symm h]
      simpa [Registry.erase, Registry.get, List.filter_cons, hkeep, List.lookup,
        hne] using ih

/-- The empty string parses to NaN. -/
theorem parseIntJS_empty : parseIntJS "" = none := rfl

/-- The bounded alternative loop equals a first-match search over the
first fuel-many candidates. -/
theorem tryAlts_eq_find (env : StreamEnv) (u : String) :
    ∀ (n : Nat) (alts : List Video),
      tryAlts env u n alts =
        (alts.take n).find? (fun v => v.url != u && env.streamAlt v.url) := by
  intro n alts
  induction alts generalizing n with
  | nil => cases n <;> simp [tryAlts]
  | cons v rest ih =>
    cases n with
    | zero => simp [tryAlts]
    | succ m =>
      by_cases h1 : (v.url == u) = true
      · have hb : (v.url != u) = false := by simp [bne, h1]
        simp [tryAlts, h1, List.take_succ_cons, List.find?_cons, hb, ih]
      · have hb : (v.url != u) = true := by simp [bne, h1]
        by_cases h2 : env.streamAlt v.url = true
        · simp [tryAlts, h1, h2, List.take_succ_cons, List.find?_cons, hb]
        · simp [tryAlts, h1, h2, List.take_succ_cons, List.find?_cons, hb, ih]

/-- The scan loop of searchYouTube equals a first-match search with the
positive candidate predicate. -/
theorem findFirstValid_eq_find :
    ∀ l : List Video,
      findFirstValid l =
        (l.find? (fun v => !v.live && v.url != "" && decide (10 ≤ v.duration))).map
          songOfVideo := by
  intro l
  induction l with
  | nil => simp [findFirstValid]
  | cons v rest ih =>
    by_cases h1 : v.live = true
    · simp [findFirstValid, h1, List.find?_cons, ih]
    · by_cases h2 : (v.url == "") = true
      · have hb : (v.url != "") = false := by simp [bne, h2]
        simp [findFirstValid, h1, h2, List.find?_cons, hb, ih]
      · have hb : (v.url != "") = true := by simp [bne, h2]
        by_cases h3 : v.duration < 10
        · have hd : decide (10 ≤ v.duration) = false := by simp; omega
          simp [findFirstValid, h1, h2, h3, List.find?_cons, hb, hd, ih]
        · have hd : decide (10 ≤ v.duration) = true := by simp; omega
          simp [findFirstValid, h1, h2, h3, List.find?_cons, hb, hd]

/-- An accepted setVolume value stores exactly v / 100. -/
theorem setVolume_accepted (reg : Registry) (g : String) (q : ServerQueue) (s : String)
    (v : Int) (hq : Registry.get reg g = some q) (hp : parseIntJS s = some v)
    (h1 : 1 ≤ v) (h100 : v ≤ 100) :
    (setVolume reg g (some s)).1 ≠ VolumeReply.invalid ∧
    (setVolume reg g (some s)).2 = Registry.set reg g { q with volume := (v : ℚ) / 100 } := by
  have hne : (s == "") = false := by
    cases h : (s == "") with
    | false => rfl
    | true =>
      exfalso
      have hs : s = "" := by simpa using h
      rw [hs, parseIntJS_empty] at hp
      cases hp
  have hv1 : decide (v < 1) = false := by simp; omega
  have hv2 : decide (100 < v) = false := by simp; omega
  by_cases hpc : playerHasVolumeControl q = true
  · simp [setVolume, hq, hne, hp, hv1, hv2, hpc]
  · simp [setVolume, hq, hne, hp, hv1, hv2, hpc]

/-- A rejected setVolume value changes nothing and reports the invalid
reply. -/
theorem setVolume_rejected (reg : Registry) (g : String) (q : ServerQueue) (s : String)
    (hq : Registry.get reg g = some q) (hne : (s == "") = false)
    (hbad : parseIntJS s = none ∨ ∃ v, parseIntJS s = some v ∧ (v < 1 ∨ 100 < v)) :
    setVolume reg g (some s) = (VolumeReply.invalid, reg) := by
  rcases hbad with hp | ⟨v, hp, hv⟩
  · simp [setVolume, hq, hne, hp]
  · have hor : (decide (v < 1) || decide (100 < v)) = true := by
      rcases hv with h | h <;> simp [h]
    simp [setVolume, hq, hne, hp, hor]

/-- Decimal representations of the integers up to 100 parse back to
themselves. -/
theorem parseIntJS_toString_small :
    ∀ n : Nat, n < 101 → parseIntJS (toString ((n : Int))) = some ((n : Int)) := by
  decide

/-- A format chosen by the priority loop is an element of the list with
a usable locator. -/
theorem findPreferredFormat_mem :
    ∀ (cs : List String) (afs : List Format) (f : Format),
      findPreferredFormat cs afs = some f → f ∈ afs ∧ f.url ≠ "" := by
  intro cs
  induction cs with
  | nil => intro afs f h; cases h
  | cons c cs ih =>
    intro afs f h
    simp only [findPreferredFormat] at h
    cases hfind : afs.find? (fun f => f.container == c && f.url != "") with
    | some f0 =>
      rw [hfind] at h
      cases h
      have hp := List.find?_some hfind
      simp only [Bool.and_eq_true, bne_iff_ne] at hp
      exact ⟨List.mem_of_find?_eq_some hfind, hp.2⟩
    | none =>
      rw [hfind] at h
      exact ih afs f h

/-- Any format selected by workingFormat is an audio format of the list
with a usable locator. -/
theorem workingFormat_mem (afs : List Format) (f : Format)
    (h : workingFormat afs = some f) : f ∈ afs ∧ f.url ≠ "" := by
  simp only [workingFormat] at h
  cases hpf : findPreferredFormat formatPriority afs with
  | some f0 =>
    rw [hpf] at h
    cases h
    exact findPreferredFormat_mem formatPriority afs f hpf
  | none =>
    rw [hpf] at h
    have hp := List.find?_some h
    simp only [bne_iff_ne] at hp
    exact ⟨List.mem_of_find?_eq_some h, hp⟩

/-- When an opus format with a usable locator exists, workingFormat
selects an opus format. -/
theorem workingFormat_opus (afs : List Format)
    (hex : ∃ f ∈ afs, f.container = "opus" ∧ f.url ≠ "") :
    ∃ f, workingFormat afs = some f ∧ f.container = "opus" := by
  obtain ⟨f0, hmem, hc, hu⟩ := hex
  cases hfind : afs.find? (fun f => f.container == "opus" && f.url != "") with
  | none =>
    exfalso
    have := List.find?_eq_none.mp hfind f0 hmem
    simp [hc, hu] at this
  | some f1 =>
    have hp := List.find?_some hfind
    simp only [Bool.and_eq_true, beq_iff_eq] at hp
    refine ⟨f1, ?_, hp.1⟩
    simp [workingFormat, formatPriority, findPreferredFormat, hfind]

/-- When any format with a usable locator exists, workingFormat selects
one. -/
theorem workingFormat_any (afs : List Format)
    (hex : ∃ f ∈ afs, f.url ≠ "") : (workingFormat afs).isSome = true := by
  cases hpf : findPreferredFormat formatPriority afs with
  | some f0 => simp [workingFormat, hpf]
  | none =>
    obtain ⟨f0, hmem, hu⟩ := hex
    cases hfind : afs.find? (fun f => f.url != "") with
    | none =>
      exfalso
      have := List.find?_eq_none.mp hfind f0 hmem
      simp [hu] at this
    | some f1 => simp [workingFormat, hpf, hfind]

/-! ### Claim theorems -/

/-- Claim C2 (confirmed): for a free-text query, resolution scans the at
most three ranked candidates returned by the search service and yields
the first one that is not a live broadcast, has a non-empty locator and
lasts at least 10 seconds; when no candidate qualifies it yields no
item. -/
theorem searchYouTube_first_valid (results : List Video) (hlen : results.length ≤ 3) :
    searchYouTube results =
      (results.find? (fun v => !v.live && v.url != "" && decide (10 ≤ v.duration))).map
        songOfVideo ∧
    (searchYouTube results = none ↔
      ∀ v ∈ results, v.live = true ∨ v.url = "" ∨ v.duration < 10) := by
  have hmain : searchYouTube results =
      (results.find? (fun v => !v.live && v.url != "" && decide (10 ≤ v.duration))).map
        songOfVideo := by
    cases results with
    | nil => rfl
    | cons v rest => simpa [searchYouTube] using findFirstValid_eq_find (v :: rest)
  refine ⟨hmain, ?_⟩
  rw [hmain]
  simp only [Option.map_eq_none', List.find?_eq_none]
  have hpt : ∀ v : Video,
      (¬ (!v.live && v.url != "" && decide (10 ≤ v.duration)) = true) ↔
        (v.live = true ∨ v.url = "" ∨ v.duration < 10) := by
    intro v
    cases hl : v.live <;> by_cases hu : v.url = "" <;> simp [hl, hu, bne] <;> omega
  exact forall_congr' fun v => forall_congr' fun _ => hpt v

/-- Claim C2 witness: on the candidate list live broadcast, five-second
short, valid track, resolution selects the valid track. -/
theorem searchYouTube_first_valid_witness :
    searchYouTube [liveVid, shortVid, validVid] = some (songOfVideo validVid) :=
  (searchYouTube_first_valid [liveVid, shortVid, validVid] (by decide)).1.trans (by decide)

/-- Claim C4 (confirmed): starting the playback controller on a guild
queue with no items marks the queue not playing, destroys the voice
connection exactly when one is held and not already destroyed, and
removes the guild from the registry. -/
theorem playMusic_empty_destroys (env : StreamEnv) (reg : Registry) (g : String)
    (q : ServerQueue) (h : q.songs = []) :
    (playMusic env reg g q).result = PlayResult.finished ∧
    (playMusic env reg g q).queue.playing = false ∧
    Registry.get (playMusic env reg g q).registry g = none ∧
    (connectionLive q = true → (playMusic env reg g q).actions = [Action.destroyConn]) ∧
    (connectionLive q = false → (playMusic env reg g q).actions = []) := by
  refine ⟨?_, ?_, ?_, ?_, ?_⟩
  · simp [playMusic, h]
  · simp [playMusic, h]
  · simp [playMusic, h, Registry.get_erase_self]
  · intro hc
    simp [playMusic, h, hc]
  · intro hc
    simp [playMusic, h, hc]

/-- Claim C4 witness: on a concrete empty queue with a live connection
the controller finishes and the registry entry is gone. -/
theorem playMusic_empty_destroys_witness :
    (playMusic happyEnv [("g", emptyQueue)] "g" emptyQueue).result = PlayResult.finished ∧
    Registry.get (playMusic happyEnv [("g", emptyQueue)] "g" emptyQueue).registry "g" =
      none ∧
    (playMusic happyEnv [("g", emptyQueue)] "g" emptyQueue).actions =
      [Action.destroyConn] := by
  have h := playMusic_empty_destroys happyEnv [("g", emptyQueue)] "g" emptyQueue rfl
  exact ⟨h.1, h.2.2.1, h.2.2.2.1 (by decide)⟩

/-- Claim C5 (confirmed): on a queue with at most one item the skip
command is rejected with an error reply and is a no-op, stopping no
stream and leaving the registry untouched; a skip is carried out only
when more than one item is queued. -/
theorem handleSkip_requires_queue (reg : Registry) (g : String) :
    (∀ q, Registry.get reg g = some q → q.songs.length ≤ 1 →
      (handleSkip reg g).1 ≠ SkipReply.skipped ∧
      (handleSkip reg g).2.1 = [] ∧
      (handleSkip reg g).2.2 = reg) ∧
    ((handleSkip reg g).1 = SkipReply.skipped →
      ∃ q, Registry.get reg g = some q ∧ 1 < q.songs.length) := by
  constructor
  · intro q hq hlen
    by_cases hpl : q.player.isNone = true
    · simp [handleSkip, hq, hpl]
    · simp [handleSkip, hq, hpl, hlen]
  · intro hsk
    cases hreg : Registry.get reg g with
    | none => simp [handleSkip, hreg] at hsk
    | some q =>
      by_cases hpl : q.player.isNone = true
      · simp [handleSkip, hreg, hpl] at hsk
      · by_cases hlen : q.songs.length ≤ 1
        · simp [handleSkip, hreg, hpl, hlen] at hsk
        · exact ⟨q, rfl, by omega⟩

/-- Claim C5 witness: skipping on a one-song queue is rejected and
changes nothing. -/
theorem handleSkip_requires_queue_witness :
    (handleSkip demoReg "g").1 ≠ SkipReply.skipped ∧
    (handleSkip demoReg "g").2.1 = [] ∧
    (handleSkip demoReg "g").2.2 = demoReg :=
  (handleSkip_requires_queue demoReg "g").1 demoQueue rfl (by decide)

/-- Claim C9 (confirmed): after a processed invocation at time t1, a
second invocation of the same command by the same user earlier than
t1 + 2000 is silently dropped, with the cooldown map unchanged and no
handler run; an invocation at or after t1 + 2000 is processed, and so is
an invocation under a different user/command key that has no recorded
timestamp. -/
theorem commandCooldown_spec (m : List (String × Nat)) (u c : String) (t1 t2 : Nat)
    (b1 b2 : Bool) (hfirst : (handleCommandMessage m u c t1 b1).1 = true) :
    (t2 < t1 + COMMAND_COOLDOWN →
      handleCommandMessage (handleCommandMessage m u c t1 b1).2 u c t2 b2 =
        (false, (handleCommandMessage m u c t1 b1).2)) ∧
    (t1 + COMMAND_COOLDOWN ≤ t2 →
      (handleCommandMessage (handleCommandMessage m u c t1 b1).2 u c t2 b2).1 = true) ∧
    (∀ u' c', cooldownKey u' c' ≠ cooldownKey u c →
      List.lookup (cooldownKey u' c') (handleCommandMessage m u c t1 b1).2 = none →
      (handleCommandMessage (handleCommandMessage m u c t1 b1).2 u' c' t2 b2).1 =
        true) := by
  have hmap : (handleCommandMessage m u c t1 b1).2 =
      if b1 then cleanupCooldowns (cooldownSet m (cooldownKey u c) t1) t1
      else cooldownSet m (cooldownKey u c) t1 := by
    simp only [handleCommandMessage] at hfirst ⊢
    split at hfirst
    case isTrue h => simp at hfirst
    case isFalse h => rw [if_neg h]
  have hlook : List.lookup (cooldownKey u c) (handleCommandMessage m u c t1 b1).2 =
      some t1 := by
    rw [hmap]
    cases b1 with
    | false => simp [cooldownSet, List.lookup]
    | true => simp [cooldownSet, cleanupCooldowns, List.filter_cons, List.lookup]
  generalize hM : (handleCommandMessage m u c t1 b1).2 = M at hlook ⊢
  refine ⟨?_, ?_, ?_⟩
  · intro hlt
    simp [handleCommandMessage, hlook, hlt]
  · intro hge
    simp [handleCommandMessage, hlook, Nat.not_lt.mpr hge]
  · intro u' c' _ hnone
    simp [handleCommandMessage, hnone]

/-- Claim C9 witness: a second play command by the same user 1500
milliseconds after the first is dropped with the map unchanged. -/
theorem commandCooldown_spec_witness :
    handleCommandMessage (handleCommandMessage [] "42" "play" 1000 false).2
      "42" "play" 2500 false =
      (false, (handleCommandMessage [] "42" "play" 1000 false).2) :=
  (commandCooldown_spec [] "42" "play" 1000 2500 false false (by decide)).1 (by decide)

/-- Claim C3 (confirmed): an existing guild queue rejects a supplied
volume argument that does not parse or lies outside [1, 100], leaving
the registry (and so the stored fraction) unchanged; an accepted integer
v stores exactly v / 100, which always lies in [0.01, 1.00]. -/
theorem setVolume_validation (reg : Registry) (g : String) (q : ServerQueue) (s : String)
    (hq : Registry.get reg g = some q) (hne : s ≠ "") :
    ((parseIntJS s = none ∨ ∃ v, parseIntJS s = some v ∧ (v < 1 ∨ 100 < v)) →
      setVolume reg g (some s) = (VolumeReply.invalid, reg)) ∧
    (∀ v : Int, parseIntJS s = some v → 1 ≤ v → v ≤ 100 →
      (setVolume reg g (some s)).1 ≠ VolumeReply.invalid ∧
      Registry.get (setVolume reg g (some s)).2 g =
        some { q with volume := (v : ℚ) / 100 } ∧
      (1 : ℚ) / 100 ≤ (v : ℚ) / 100 ∧ (v : ℚ) / 100 ≤ 1) := by
  have hne' : (s == "") = false := beq_eq_false_iff_ne.mpr hne
  refine ⟨setVolume_rejected reg g q s hq hne', fun v hp h1 h100 => ?_⟩
  obtain ⟨hni, heq⟩ := setVolume_accepted reg g q s v hq hp h1 h100
  refine ⟨hni, ?_, ?_, ?_⟩
  · rw [heq, Registry.get_set_self]
  · exact (div_le_div_iff_of_pos_right (by norm_num)).mpr (by exact_mod_cast h1)
  · exact (div_le_one (by norm_num)).mpr (by exact_mod_cast h100)

/-- Claim C3 witness: volume 150 is rejected without touching the
registry, and volume 75 stores exactly three quarters. -/
theorem setVolume_validation_witness :
    setVolume demoReg "g" (some "150") = (VolumeReply.invalid, demoReg) ∧
    Registry.get (setVolume demoReg "g" (some "75")).2 "g" =
      some { demoQueue with volume := ((75 : Int) : ℚ) / 100 } := by
  constructor
  · exact (setVolume_validation demoReg "g" demoQueue "150" rfl (by decide)).1
      (Or.inr ⟨150, by decide, Or.inr (by decide)⟩)
  · exact ((setVolume_validation demoReg "g" demoQueue "75" rfl (by decide)).2 75
      (by decide) (by decide) (by decide)).2.1

/-- Claim C10 (confirmed): a relative volume adjustment clamps the
requested value into [1, 100] before handing it to setVolume, so it is
never rejected as out of range and the stored fraction stays inside
[0.01, 1.00]. -/
theorem adjustVolume_always_clamped (reg : Registry) (g : String) (q : ServerQueue)
    (change : Int) (hq : Registry.get reg g = some q)
    (hch : change = 10 ∨ change = -10) :
    (adjustVolume reg g change).1 ≠ VolumeReply.invalid ∧
    ∃ v : Int, 1 ≤ v ∧ v ≤ 100 ∧
      Registry.get (adjustVolume reg g change).2 g =
        some { q with volume := (v : ℚ) / 100 } ∧
      (1 : ℚ) / 100 ≤ (v : ℚ) / 100 ∧ (v : ℚ) / 100 ≤ 1 := by
  obtain ⟨w, hw⟩ : ∃ w : Int, w = max 1 (min 100 (currentVolumePct q + change)) :=
    ⟨_, rfl⟩
  have hadj : adjustVolume reg g change = setVolume reg g (some (toString w)) := by
    rw [hw]
    simp [adjustVolume, hq]
  have h1 : 1 ≤ w := by
    rw [hw]
    exact le_max_left _ _
  have h100 : w ≤ 100 := by
    rw [hw]
    exact max_le (by norm_num) (min_le_left _ _)
  have hparse : parseIntJS (toString w) = some w := by
    obtain ⟨n, hn⟩ : ∃ n : Nat, w = (n : Int) := ⟨w.toNat, by omega⟩
    have hn101 : n < 101 := by omega
    rw [hn]
    exact parseIntJS_toString_small n hn101
  obtain ⟨hni, heq⟩ := setVolume_accepted reg g q (toString w) w hq hparse h1 h100
  rw [hadj]
  refine ⟨hni, w, h1, h100, ?_, ?_, ?_⟩
  · rw [heq, Registry.get_set_self]
  · exact (div_le_div_iff_of_pos_right (by norm_num)).mpr (by exact_mod_cast h1)
  · exact (div_le_one (by norm_num)).mpr (by exact_mod_cast h100)

/-- Claim C10 witness: raising the demo queue volume by ten percent is
not rejected. -/
theorem adjustVolume_always_clamped_witness :
    (adjustVolume demoReg "g" 10).1 ≠ VolumeReply.invalid :=
  (adjustVolume_always_clamped demoReg "g" demoQueue 10 rfl (Or.inl rfl)).1

/-- Claim C1 counterexample: the claim as stated is false. In this
concrete scenario the first two tiers fail, the alternative search
returns five candidates, and the first candidate that streams (the
fourth, as the first-match search over all five shows) lies beyond the
first three; the code nevertheless gives up, drops the head item and
schedules a cooldown retry instead of playing the fourth candidate. -/
theorem playMusic_alternatives_beyond_three_cx :
    ((cxEnv.altSearch (sanitizeQuery (cxSong.title ++ " " ++ cxSong.author))).find?
        (fun v => v.url != normalizeYouTubeURL cxSong.url && cxEnv.streamAlt v.url) =
      some (cxAlt 4)) ∧
    tier1Succeeds cxEnv (normalizeYouTubeURL cxSong.url) = false ∧
    cxEnv.streamLowest (normalizeYouTubeURL cxSong.url) = false ∧
    (playMusic cxEnv cxReg "g" cxQ).result = PlayResult.failedAll ∧
    (playMusic cxEnv cxReg "g" cxQ).queue.songs = [] := by
  refine ⟨by decide, rfl, rfl, rfl, rfl⟩

/-- Claim C1 (amended): when the head item of a guild queue has a
non-empty, validated locator, playback proceeds in fixed tiers. The
primary tier selects an audio-only format in priority order opus, mp4,
webm, else any audio-only format with a locator (the three leading
conjuncts characterize that selection); on its failure the
lowest-quality audio filter is tried; on failure of both, a sanitized
title-author query fetches up to five alternative candidates but only
the first three are tried in turn (a candidate whose locator equals the
failed one is skipped yet still consumes one of the three tries), the
first success replacing the head item in place; when none of the first
three streams, the head item is dropped and the controller retries
after the cooldown. -/
theorem playMusic_tiered_fallback (env : StreamEnv) (reg : Registry) (g : String)
    (q : ServerQueue) (song : Song) (rest : List Song)
    (hsongs : q.songs = song :: rest)
    (hurl : song.url ≠ "")
    (hhttp : startsWithStr (normalizeYouTubeURL song.url) "http" = true)
    (hvalid : env.validateURL (normalizeYouTubeURL song.url) = true) :
    (∀ afs f, workingFormat afs = some f → f ∈ afs ∧ f.url ≠ "") ∧
    (∀ afs, (∃ f ∈ afs, f.container = "opus" ∧ f.url ≠ "") →
      ∃ f, workingFormat afs = some f ∧ f.container = "opus") ∧
    (∀ afs, (∃ f ∈ afs, f.url ≠ "") → (workingFormat afs).isSome = true) ∧
    (tier1Succeeds env (normalizeYouTubeURL song.url) = true →
      (playMusic env reg g q).result = PlayResult.playedPrimary ∧
      (playMusic env reg g q).queue.songs = song :: rest ∧
      (playMusic env reg g q).queue.playing = true) ∧
    (tier1Succeeds env (normalizeYouTubeURL song.url) = false →
      env.streamLowest (normalizeYouTubeURL song.url) = true →
      (playMusic env reg g q).result = PlayResult.playedFallback ∧
      (playMusic env reg g q).queue.playing = true) ∧
    (tier1Succeeds env (normalizeYouTubeURL song.url) = false →
      env.streamLowest (normalizeYouTubeURL song.url) = false →
      (∀ v, ((env.altSearch (sanitizeQuery (song.title ++ " " ++ song.author))).take 3).find?
          (fun v => v.url != normalizeYouTubeURL song.url && env.streamAlt v.url) =
            some v →
        (playMusic env reg g q).result = PlayResult.playedAlternative ∧
        (playMusic env reg g q).queue.songs = songOfVideo v :: rest ∧
        (playMusic env reg g q).queue.playing = true) ∧
      (((env.altSearch (sanitizeQuery (song.title ++ " " ++ song.author))).take 3).find?
          (fun v => v.url != normalizeYouTubeURL song.url && env.streamAlt v.url) =
            none →
        (playMusic env reg g q).result = PlayResult.failedAll ∧
        (playMusic env reg g q).queue.songs = rest)) := by
  have hbne : (song.url == "") = false := beq_eq_false_iff_ne.mpr hurl
  refine ⟨fun afs f h => workingFormat_mem afs f h, workingFormat_opus, workingFormat_any,
    ?_, ?_, ?_⟩
  · intro h1
    refine ⟨?_, ?_, ?_⟩ <;> simp [playMusic, hsongs, hbne, hhttp, hvalid, h1]
  · intro h1 h2
    refine ⟨?_, ?_⟩ <;> simp [playMusic, hsongs, hbne, hhttp, hvalid, h1, h2]
  · intro h1 h2
    constructor
    · intro v hfind
      refine ⟨?_, ?_, ?_⟩ <;>
        simp [playMusic, hsongs, hbne, hhttp, hvalid, h1, h2, tryAlts_eq_find, hfind]
    · intro hfind
      refine ⟨?_, ?_⟩ <;>
        simp [playMusic, hsongs, hbne, hhttp, hvalid, h1, h2, tryAlts_eq_find, hfind]

/-- Claim C1 witness: with the first two tiers failing and the second of
five alternatives streaming, the head item is replaced in place by that
alternative and playback starts. -/
theorem playMusic_tiered_fallback_witness :
    (playMusic wEnv cxReg "g" cxQ).result = PlayResult.playedAlternative ∧
    (playMusic wEnv cxReg "g" cxQ).queue.songs = [songOfVideo (cxAlt 2)] := by
  have h := playMusic_tiered_fallback wEnv cxReg "g" cxQ cxSong [] rfl (by decide)
    (by decide) rfl
  have h3 := (h.2.2.2.2.2 rfl rfl).1 (cxAlt 2) (by decide)
  exact ⟨h3.1, h3.2.1⟩

/-- Claim C6 counterexample: the claim as stated is false. With a queue
playing for guild g, stop removes the registry entry; yet when the
in-flight resolution later completes, handlePlay finds no entry,
creates a fresh queue, enqueues the resolved item and starts playback:
a stream is opened and the registry again holds an entry for the
server, contradicting both parts of the claim. -/
theorem stop_during_resolution_cx :
    Registry.get (handleStop demoReg "g").2.2 "g" = none ∧
    streamOpenedIn (playCompleteActions
      (handlePlayComplete happyEnv (handleStop demoReg "g").2.2 "g" (some demoSongB)).1) =
      true ∧
    Registry.get
      (handlePlayComplete happyEnv (handleStop demoReg "g").2.2 "g" (some demoSongB)).2
      "g" ≠ none := by
  refine ⟨rfl, rfl, by decide⟩

/-- Claim C6 (amended): stop during an in-flight resolution only clears
the then-current registry entry; when the resolution later completes
against a registry without an entry for the server, handlePlay creates
a fresh queue, enqueues the resolved item and, the fresh queue not
playing, immediately starts playback: a stream is opened for the
resolved item and the registry again holds an entry for that server. -/
theorem handlePlay_after_stop_restarts (env : StreamEnv) (reg : Registry) (g : String)
    (song : Song)
    (hreg : Registry.get reg g = none)
    (hurl : song.url ≠ "")
    (hhttp : startsWithStr (normalizeYouTubeURL song.url) "http" = true)
    (hvalid : env.validateURL (normalizeYouTubeURL song.url) = true)
    (hstream : tier1Succeeds env (normalizeYouTubeURL song.url) = true) :
    ∃ step, (handlePlayComplete env reg g (some song)).1 =
        PlayCompleteResult.startedPlayback step ∧
      step.actions = [Action.playStream (normalizeYouTubeURL song.url)] ∧
      Registry.get (handlePlayComplete env reg g (some song)).2 g = some step.queue ∧
      step.queue.playing = true ∧
      step.queue.songs = [song] := by
  have hbne : (song.url == "") = false := beq_eq_false_iff_ne.mpr hurl
  refine ⟨playMusic env
    (Registry.set reg g { ServerQueue.init with songs := [song] }) g
    { ServerQueue.init with songs := [song] }, ?_, ?_, ?_, ?_, ?_⟩ <;>
    simp [handlePlayComplete, hreg, ServerQueue.init, playMusic, hbne, hhttp, hvalid,
      hstream, Registry.get_set_self]

/-- Claim C6 amended witness: completing a resolution against an empty
registry opens a stream. -/
theorem handlePlay_after_stop_restarts_witness :
    streamOpenedIn (playCompleteActions
      (handlePlayComplete happyEnv [] "g" (some demoSongB)).1) = true := by
  obtain ⟨step, h1, h2, _, _, _⟩ := handlePlay_after_stop_restarts happyEnv [] "g"
    demoSongB rfl (by decide) (by decide) rfl rfl
  rw [h1]
  simp [playCompleteActions, h2, streamOpenedIn]

/-- Claim C7 counterexample: the claim as stated is false. With the
shared throttle timestamp at 5000 (the instant of the previous external
call), a Spotify resolution arriving at 5100 issues its catalog
getTrack call immediately at 5100, only 100 milliseconds after the
previous call, because only the subsequent search runs through the
throttle (that search is correctly delayed to 6000). -/
theorem spotify_getTrack_unthrottled_cx :
    (handleSpotifyTrack spotifyDemoEnv "https://open.spotify.com/track/abc"
        5000 5100).2.1 =
      [CallEvent.mk "getTrack" 5100, CallEvent.mk "search" 6000] ∧
    5100 < 5000 + REQUEST_DELAY := by
  exact ⟨rfl, by decide⟩

/-- Claim C7 (amended): calls that do run through throttleRequests
proceed at least one second after the previous throttled call: the
shared timestamp is process-wide, a call arriving sooner is delayed to
exactly the end of the one-second interval, and a later one proceeds
immediately. But the Spotify catalog getTrack call of the resolver
bypasses the throttle and is issued at its arrival time, while the
subsequent search call is throttled. -/
theorem throttle_spacing_and_bypass (lastRequestTime now : Nat)
    (h : lastRequestTime ≤ now) :
    lastRequestTime + REQUEST_DELAY ≤ (throttleRequests lastRequestTime now).1 ∧
    (throttleRequests lastRequestTime now).2 = (throttleRequests lastRequestTime now).1 ∧
    (now < lastRequestTime + REQUEST_DELAY →
      (throttleRequests lastRequestTime now).1 = lastRequestTime + REQUEST_DELAY) ∧
    (lastRequestTime + REQUEST_DELAY ≤ now →
      (throttleRequests lastRequestTime now).1 = now) ∧
    (∀ (renv : ResolveEnv) (url tid trackName artistName : String),
      extractTrackId url = some tid →
      renv.getTrack tid = some (trackName, artistName) →
      (handleSpotifyTrack renv url lastRequestTime now).2.1 =
        [CallEvent.mk "getTrack" now,
         CallEvent.mk "search" (throttleRequests lastRequestTime now).1]) := by
  have hth : throttleRequests lastRequestTime now =
      if now < lastRequestTime + 1000 then
        (lastRequestTime + 1000, lastRequestTime + 1000)
      else (now, now) := by
    by_cases hc : now < lastRequestTime + 1000
    · have hlt : now - lastRequestTime < REQUEST_DELAY := by
        simp only [REQUEST_DELAY]
        omega
      have he : now + (REQUEST_DELAY - (now - lastRequestTime)) =
          lastRequestTime + 1000 := by
        simp only [REQUEST_DELAY]
        omega
      simp [throttleRequests, hlt, he, hc]
    · have hnlt : ¬ now - lastRequestTime < REQUEST_DELAY := by
        simp only [REQUEST_DELAY]
        omega
      simp [throttleRequests, hnlt, hc]
  refine ⟨?_, ?_, ?_, ?_, ?_⟩
  · rw [hth]
    by_cases hc : now < lastRequestTime + 1000
    · simp [if_pos hc, REQUEST_DELAY]
    · simp only [if_neg hc]
      simp only [REQUEST_DELAY]
      omega
  · rw [hth]
    by_cases hc : now < lastRequestTime + 1000 <;> simp [hc]
  · intro hlt
    rw [hth]
    simp only [REQUEST_DELAY] at hlt ⊢
    simp [hlt]
  · intro hge
    have hnc : ¬ now < lastRequestTime + 1000 := by
      simp only [REQUEST_DELAY] at hge
      omega
    rw [hth]
    simp [hnc]
  · intro renv url tid trackName artistName hx hg
    simp [handleSpotifyTrack, hx, hg]

/-- Claim C7 amended witness: a throttled call arriving 100 milliseconds
after the previous one proceeds exactly at the end of the one-second
interval. -/
theorem throttle_spacing_and_bypass_witness :
    (throttleRequests 5000 5100).1 = 5000 + REQUEST_DELAY :=
  (throttle_spacing_and_bypass 5000 5100 (by decide)).2.2.1 (by decide)

/-- Claim C8: the retry helper retryWithBackoff does implement the
documented policy (retry only on a message containing 429, delays
baseDelay times two to the attempt index, at most maxRetries attempts,
final error rethrown), as its run on the rate-limited service shows:
one backoff delay of 1000 and success on the second attempt. But no
external call is routed through it: searchYouTube makes exactly one
service attempt and catches a 429 failure into a no-result reply, so
the very same service state that retryWithBackoff would recover from
surfaces as no result to the caller. -/
theorem searchYouTube_no_retry_on_429 :
    searchYouTubeAttempt (Except.error err429) = none ∧
    contains429 err429 = true ∧
    retryWithBackoff rateLimitedService 3 1000 =
      (some (Except.ok [retryDemoVideo]), [1000]) ∧
    searchYouTube [retryDemoVideo] = some (songOfVideo retryDemoVideo) := by
  exact ⟨rfl, by decide, rfl, rfl⟩

end Vibe
